import Mathlib

/-!
Shallow embedding of the conversational tool-dispatch orchestrator of the
Grassroots Football Management backend (`backend/services/ai-chatbot/app.py`).

The orchestrator is the `/query-ai` Flask route (`query_ai`) together with
`call_external_service`.  External collaborators (Firebase token verification,
the OpenAI chat-completion service, and the HTTP gateway) are modelled as
oracle functions supplied in an `Oracles` record; the embedding records every
outbound call in a `Trace` so that statements such as "no gateway call occurs"
are expressible.
-/

namespace Grassroots

/-- Python truthiness of an optional string: `data.get(k)` is `None` when the
field is absent, and `not s` is true for `None` and for the empty string. -/
def pyFalsy : Option String → Bool
  | none => true
  | some s => s == ""

/-- How Python renders an optional string when it is interpolated into a
format string: `str.format` prints `None` for the `None` value. -/
def pyStr : Option String → String
  | none => "None"
  | some s => s

/-- Python `s.lower()` (ASCII case folding; the keyword tables are ASCII).
Defined over the character list so that it evaluates by kernel reduction. -/
def pyLower (s : String) : String := ⟨s.data.map Char.toLower⟩

/-- Python `needle in hay` on strings: substring containment. -/
def pyIn (needle hay : String) : Bool :=
  hay.data.tails.any (fun t => needle.data.isPrefixOf t)

/-- HTTP method of an outbound request.  `requests.get` always produces
`Method.GET`; the other constructors exist so that the no-mutation invariant
is a non-trivial statement. -/
inductive Method
  | GET
  | POST
  | PUT
  | PATCH
  | DELETE
deriving DecidableEq, Repr

/-- One outbound HTTP request to the internal gateway, as issued by
`call_external_service` (`requests.get(url, headers=..., params=..., timeout=20)`). -/
structure GatewayCall where
  method : Method
  url : String
  params : List (String × String)
  authHeader : String
  timeout : Nat
deriving DecidableEq, Repr

/-- Response of the gateway: HTTP status, raw text body, and - when the body
parses as JSON - the value of `json.dumps(response.json())`.  `jsonData = none`
models a body on which `response.json()` raises. -/
structure GatewayResp where
  status : Nat
  text : String
  jsonData : Option String
deriving DecidableEq, Repr

/-- One tool call emitted by the model.  `arguments` is the outcome of
`json.loads(tool_call.function.arguments)`: `some m` when the raw argument
string parses to the mapping `m`, `none` when parsing raises (in which case
the code falls back to `{}`). -/
structure ToolCall where
  name : String
  arguments : Option (List (String × String))
deriving DecidableEq, Repr

/-- Message object of the first chat completion: a (possibly empty) list
of tool calls and the free-text content (`""` models Python `None` content,
which is falsy exactly like the empty string everywhere it is used). -/
structure ModelMsg where
  tool_calls : List ToolCall
  content : String
deriving DecidableEq, Repr

/-- Decoded Firebase token claim set; `email` is `decoded.get("email")`,
which may be absent. -/
structure Decoded where
  email : Option String
deriving DecidableEq, Repr

/-- One call to the OpenAI inference service: either the first
(intent-resolution) completion or a second (synthesis) completion, identified
by the system and user message contents sent. -/
inductive InfCall
  | resolve (system user : String)
  | synth (system user : String)
deriving DecidableEq, Repr

/-- Python exceptions that the embedded code can raise and that the outer
`except Exception` handler of `query_ai` turns into a 500 response. -/
inductive PyErr
  | unboundLocal (name : String)
  | jsonDecode
deriving DecidableEq, Repr

deriving instance DecidableEq for Except

/-- Rendering of `str(e)` for the exceptions above (message text follows
CPython; no theorem below depends on the exact wording). -/
def pyErrStr : PyErr → String
  | .unboundLocal n => "local variable \x27" ++ n ++ "\x27 referenced before assignment"
  | .jsonDecode => "Expecting value: line 1 column 1 (char 0)"

/-- External collaborators, as oracle functions.  `current_date` stands
for `datetime.now().strftime("%Y-%m-%d")`. -/
structure Oracles where
  current_date : String
  /-- Oracle for `auth.verify_id_token`: `none` models the verification raising. -/
  verify_id_token : String → Option Decoded
  /-- Oracle for the first `openai_client.chat.completions.create` call (model
  `gpt-4o`, `tools=TOOLS`, `tool_choice="auto"`, `temperature=0.2`), keyed by
  the system and user message contents. -/
  chat_completion : String → String → ModelMsg
  /-- Oracle for `requests.get` against the gateway. -/
  http_get : GatewayCall → GatewayResp
  /-- Oracle for the second `openai_client.chat.completions.create` call
  (`temperature=0.4`), keyed by the system and user message contents; returns
  the reply content (`""` models `None` content, which is falsy exactly
  like `""`). -/
  synth_completion : String → String → String

/-- JSON body of `POST /query-ai`; every field is read with `data.get`,
so absent fields are `none`. -/
structure ChatRequest where
  message : Option String
  token : Option String
  email : Option String
  month : Option String
  clubName : Option String
  ageGroup : Option String
  division : Option String
deriving DecidableEq, Repr

/-- Body of the HTTP response: `jsonify({"reply": s})` or `jsonify({"error": s})`. -/
inductive Body
  | reply (s : String)
  | error (s : String)
deriving DecidableEq, Repr

/-- HTTP response of the endpoint. -/
structure HttpResponse where
  status : Nat
  body : Body
deriving DecidableEq, Repr

/-- Record of the outbound calls a request performed, in order within each
category. -/
structure Trace where
  verify_calls : List String
  inf_calls : List InfCall
  gw_calls : List GatewayCall
deriving DecidableEq, Repr

/-- Gateway base URL hard-coded in `call_external_service`. -/
def GATEWAY_BASE : String := "https://grassroots-gateway-2au66zeb.nw.gateway.dev"

/-- The `SYSTEM_PROMPT` template with `str.format` applied, as in `query_ai`
(`SYSTEM_PROMPT.format(current_date=..., user_email=..., club_name=...,
age_group=..., division=..., current_month=..., id_token=...)`). -/
def SYSTEM_PROMPT_format (current_date user_email club_name age_group division
    current_month id_token : String) : String :=
  "You are a helpful AI assistant for Grassroots Football Management.\n\nToday\x27s date is "
  ++ current_date
  ++ ", formatted as YYYY-MM-DD (Year-Month-Day).\n\nYou are assisting user "
  ++ user_email
  ++ ". Their club is "
  ++ club_name
  ++ ", age group is "
  ++ age_group
  ++ ", and division is "
  ++ division
  ++ ".\n\nYou can ONLY retrieve data via GET requests from the microservices.\nNever propose or perform POST, PUT, PATCH, or DELETE.\nIf the user’s request requires an update, politely refuse.\n\nThe user\x27s email is "
  ++ user_email
  ++ ", ID token is "
  ++ id_token
  ++ ", month is "
  ++ current_month
  ++ ".\n\nBegin:\n"

/-- System message of the synthesis (second) completion in
`call_external_service`, an f-string parameterised by `fn_name`. -/
def followup_system (fn_name : String) : String :=
  "\nYou have retrieved data from the "
  ++ fn_name
  ++ " endpoint.\n\nYour job is to convert this into a clear, helpful message for the user, who is a grassroots football manager.\n\n- **DO NOT** use markdown (`*`, `_`, `-`, `#`, `>`, backticks, etc.).\n- **DO NOT** format responses with markdown-style lists or bold/italic.\n- Use simple plain text.\n- Structure responses using clear sentence formatting.\n\nExplain the significance of the data where relevant.\n"

/-- User message of the synthesis completion:
`f"The user asked: {original_user_message}. Here is the data you retrieved: {json.dumps(data)}"`. -/
def followup_user (original_user_message dataDump : String) : String :=
  "The user asked: " ++ original_user_message
  ++ ". Here is the data you retrieved: " ++ dataDump

/-- The `GatewayCall` built by `call_external_service`:
`requests.get(GATEWAY_BASE + base_url, headers={"Authorization": f"Bearer {id_token}"}, params=params, timeout=20)`. -/
def mk_gateway_call (base_url : String) (params : List (String × String))
    (id_token : String) : GatewayCall :=
  { method := Method.GET
    url := GATEWAY_BASE ++ base_url
    params := params
    authHeader := "Bearer " ++ id_token
    timeout := 20 }

/-- Embedding of `call_external_service(fn_name, base_url, params, id_token,
original_user_message)`: issues the gateway GET; on 200 it parses the JSON
body (raising on parse failure) and runs the synthesis completion, returning
its content; on any other status it returns the literal failure string.  The
second and third components record the gateway and inference calls performed. -/
def call_external_service (o : Oracles) (fn_name base_url : String)
    (params : List (String × String)) (id_token original_user_message : String) :
    Except PyErr String × List GatewayCall × List InfCall :=
  let gc := mk_gateway_call base_url params id_token
  let response := o.http_get gc
  if response.status == 200 then
    match response.jsonData with
    | none => (.error .jsonDecode, [gc], [])
    | some d =>
      let sys := followup_system fn_name
      let usr := followup_user original_user_message d
      (.ok (o.synth_completion sys usr), [gc], [InfCall.synth sys usr])
  else
    (.ok (fn_name ++ " failed with status " ++ toString response.status
          ++ ": " ++ response.text), [gc], [])

/-- Body of the per-tool-call `if fn_name == ... elif ... else` chain in
`query_ai` (the loop over `msg.tool_calls`).  Each known capability maps to a
`call_external_service` call with a fixed route; `getResult` and
`getPlayerRating` pass the literal `{}` instead of `fn_args` (as the source
does); every unknown name yields the literal reply with no call. -/
def dispatch_tool_call (o : Oracles) (fn_name : String)
    (fn_args : List (String × String)) (id_token user_message : String) :
    Except PyErr String × List GatewayCall × List InfCall :=
  if fn_name == "getPlayers" then
    call_external_service o "getPlayers" "/club/players" fn_args id_token user_message
  else if fn_name == "listTeamMembers" then
    call_external_service o "listTeamMembers" "/membership/team" fn_args id_token user_message
  else if fn_name == "searchClubs" then
    call_external_service o "searchClubs" "/club/search" fn_args id_token user_message
  else if fn_name == "getFixturesByMonth" then
    call_external_service o "getFixturesByMonth" "/schedule/fixture" fn_args id_token user_message
  else if fn_name == "getAllFixtures" then
    call_external_service o "getAllFixtures" "/schedule/fixtures" fn_args id_token user_message
  else if fn_name == "getTrainingsByMonth" then
    call_external_service o "getTrainingsByMonth" "/schedule/training" fn_args id_token user_message
  else if fn_name == "getLineups" then
    call_external_service o "getLineups" "/fixture/lineups" fn_args id_token user_message
  else if fn_name == "getEvents" then
    call_external_service o "getEvents" "/fixture/events" fn_args id_token user_message
  else if fn_name == "getResult" then
    call_external_service o "getResult" "/fixture/results" [] id_token user_message
  else if fn_name == "getPlayerRating" then
    call_external_service o "getPlayerRating" "/fixture/player" [] id_token user_message
  else if fn_name == "getRides" then
    call_external_service o "getRides" "/carpool/rides" fn_args id_token user_message
  else if fn_name == "listProducts" then
    call_external_service o "listProducts" "/products/list" fn_args id_token user_message
  else if fn_name == "listTransactions" then
    call_external_service o "listTransactions" "/transactions/list" fn_args id_token user_message
  else if fn_name == "getPlayerStats" then
    call_external_service o "getPlayerStats" "/stats/get" fn_args id_token user_message
  else if fn_name == "searchPlayersByName" then
    call_external_service o "searchPlayersByName" "/stats/search" fn_args id_token user_message
  else if fn_name == "listAllPlayerStats" then
    call_external_service o "listAllPlayerStats" "/stats/list" fn_args id_token user_message
  else
    (.ok "Unknown function call received.", [], [])

/-- The loop over `msg.tool_calls` in `query_ai`: each tool call parses its
arguments (defaulting to `{}` on failure), dispatches, and appends its reply
when the reply is truthy (`if reply:`); an exception aborts the loop keeping
the effects performed so far. -/
def process_tool_calls (o : Oracles) :
    List ToolCall → String → String →
    Except PyErr (List String) × List GatewayCall × List InfCall
  | [], _, _ => (.ok [], [], [])
  | tc :: rest, id_token, user_message =>
    let s := dispatch_tool_call o tc.name (tc.arguments.getD []) id_token user_message
    match s.1 with
    | .error e => (.error e, s.2.1, s.2.2)
    | .ok reply =>
      let p := process_tool_calls o rest id_token user_message
      match p.1 with
      | .error e => (.error e, s.2.1 ++ p.2.1, s.2.2 ++ p.2.2)
      | .ok rs =>
        (.ok (if reply == "" then rs else reply :: rs),
         s.2.1 ++ p.2.1, s.2.2 ++ p.2.2)

/-- Keyword table of the fallback branch of `query_ai` (reached only when
`msg.tool_calls` is empty), returning the forced `fn_name` when a keyword
group matches the lowercased user message, in source order with first match
winning. -/
def fallback_fn_name (lower_message : String) : Option String :=
  if pyIn "players" lower_message || pyIn "members" lower_message then
    some "listTeamMembers"
  else if pyIn "fixtures" lower_message then
    some "getAllFixtures"
  else if pyIn "products" lower_message || pyIn "merchandise" lower_message then
    some "listProducts"
  else if pyIn "transactions" lower_message || pyIn "payments" lower_message then
    some "listTransactions"
  else
    none

/-- The `/query-ai` route (`query_ai`).  Mirrors the source control flow:
missing-field check, token verification, email match, prompt assembly, first
completion, then either the tool-call loop or the fallback branch.  In the
fallback branch, when a keyword matches, the source reads the local variable
`fn_args`, which is assigned only inside the (not taken) `msg.tool_calls`
branch, so Python raises `UnboundLocalError`; the outer `except Exception`
turns any raised exception into a 500 response. -/
def query_ai (o : Oracles) (req : ChatRequest) : HttpResponse × Trace :=
  let user_message := pyStr req.message
  let id_token := pyStr req.token
  let user_email := pyStr req.email
  if pyFalsy req.message || pyFalsy req.token || pyFalsy req.email then
    (⟨400, .error "Missing required fields"⟩, ⟨[], [], []⟩)
  else
    match o.verify_id_token id_token with
    | none => (⟨401, .error "Invalid token"⟩, ⟨[id_token], [], []⟩)
    | some decoded =>
      if decoded.email != some user_email then
        (⟨403, .error "Email mismatch"⟩, ⟨[id_token], [], []⟩)
      else
        let system_prompt := SYSTEM_PROMPT_format o.current_date user_email
          (pyStr req.clubName) (pyStr req.ageGroup) (pyStr req.division)
          (pyStr req.month) id_token
        let msg := o.chat_completion system_prompt user_message
        let resolveCall := InfCall.resolve system_prompt user_message
        if msg.tool_calls != [] then
          let r := process_tool_calls o msg.tool_calls id_token user_message
          match r.1 with
          | .error e =>
            (⟨500, .error (pyErrStr e)⟩, ⟨[id_token], resolveCall :: r.2.2, r.2.1⟩)
          | .ok replies =>
            (⟨200, .reply (String.intercalate "\n" replies)⟩,
             ⟨[id_token], resolveCall :: r.2.2, r.2.1⟩)
        else
          match fallback_fn_name (pyLower user_message) with
          | some _fn =>
            (⟨500, .error (pyErrStr (.unboundLocal "fn_args"))⟩,
             ⟨[id_token], [resolveCall], []⟩)
          | none =>
            (⟨200, .reply msg.content⟩, ⟨[id_token], [resolveCall], []⟩)

/-- Name-to-route table extracted from the dispatch chain of `query_ai`: the
capability catalog together with the gateway route each capability maps to. -/
def CATALOG : List (String × String) :=
  [("getPlayers", "/club/players"),
   ("listTeamMembers", "/membership/team"),
   ("searchClubs", "/club/search"),
   ("getFixturesByMonth", "/schedule/fixture"),
   ("getAllFixtures", "/schedule/fixtures"),
   ("getTrainingsByMonth", "/schedule/training"),
   ("getLineups", "/fixture/lineups"),
   ("getEvents", "/fixture/events"),
   ("getResult", "/fixture/results"),
   ("getPlayerRating", "/fixture/player"),
   ("getRides", "/carpool/rides"),
   ("listProducts", "/products/list"),
   ("listTransactions", "/transactions/list"),
   ("getPlayerStats", "/stats/get"),
   ("searchPlayersByName", "/stats/search"),
   ("listAllPlayerStats", "/stats/list")]

/-- Query parameters the dispatch chain actually forwards for a capability:
the parsed arguments, except that the `getResult` and `getPlayerRating`
branches pass the literal `{}`. -/
def sent_params (fn_name : String) (fn_args : List (String × String)) :
    List (String × String) :=
  if fn_name == "getResult" || fn_name == "getPlayerRating" then [] else fn_args

/-- Part of the assembled system prompt that precedes the interpolated
session token. -/
def prompt_before_token (current_date user_email club_name age_group division :
    String) : String :=
  "You are a helpful AI assistant for Grassroots Football Management.\n\nToday\x27s date is "
  ++ current_date
  ++ ", formatted as YYYY-MM-DD (Year-Month-Day).\n\nYou are assisting user "
  ++ user_email
  ++ ". Their club is "
  ++ club_name
  ++ ", age group is "
  ++ age_group
  ++ ", and division is "
  ++ division
  ++ ".\n\nYou can ONLY retrieve data via GET requests from the microservices.\nNever propose or perform POST, PUT, PATCH, or DELETE.\nIf the user’s request requires an update, politely refuse.\n\nThe user\x27s email is "
  ++ user_email
  ++ ", ID token is "

/-- Part of the assembled system prompt that follows the interpolated
session token. -/
def prompt_after_token (current_month : String) : String :=
  ", month is " ++ current_month ++ ".\n\nBegin:\n"

lemma SYSTEM_PROMPT_split (d e cl a v m t : String) :
    SYSTEM_PROMPT_format d e cl a v m t =
      prompt_before_token d e cl a v ++ t ++ prompt_after_token m := by
  simp [SYSTEM_PROMPT_format, prompt_before_token, prompt_after_token,
    String.append_assoc]

lemma append_middle_cancel (A B t1 t2 : String)
    (h : A ++ t1 ++ B = A ++ t2 ++ B) : t1 = t2 := by
  have hd : A.data ++ t1.data ++ B.data = A.data ++ t2.data ++ B.data := by
    have := congrArg String.data h
    simpa [String.data_append] using this
  apply String.ext
  have h3 := List.append_cancel_left ((List.append_assoc _ _ _).symm.trans
    ((congrArg _ rfl).trans hd) |>.trans (List.append_assoc _ _ _))
  exact List.append_cancel_right h3

lemma prompt_contains_token (d e cl a v m t : String) :
    ∃ A B : List Char,
      (SYSTEM_PROMPT_format d e cl a v m t).data = A ++ t.data ++ B := by
  refine ⟨(prompt_before_token d e cl a v).data, (prompt_after_token m).data, ?_⟩
  rw [SYSTEM_PROMPT_split]
  simp [String.data_append]

lemma prompt_token_inj (d e cl a v m t1 t2 : String)
    (h : SYSTEM_PROMPT_format d e cl a v m t1 = SYSTEM_PROMPT_format d e cl a v m t2) :
    t1 = t2 := by
  rw [SYSTEM_PROMPT_split, SYSTEM_PROMPT_split] at h
  exact append_middle_cancel _ _ _ _ h

lemma dispatch_tool_call_catalog (o : Oracles) (fn_name route : String)
    (fn_args : List (String × String)) (id_token user_message : String)
    (h : (fn_name, route) ∈ CATALOG) :
    dispatch_tool_call o fn_name fn_args id_token user_message =
      call_external_service o fn_name route (sent_params fn_name fn_args)
        id_token user_message := by
  fin_cases h <;> rfl

lemma dispatch_tool_call_unknown (o : Oracles) (fn_name : String)
    (fn_args : List (String × String)) (id_token user_message : String)
    (h : fn_name ∉ CATALOG.map Prod.fst) :
    dispatch_tool_call o fn_name fn_args id_token user_message =
      (.ok "Unknown function call received.", [], []) := by
  simp only [CATALOG, List.map_cons, List.map_nil, List.mem_cons,
    List.not_mem_nil, or_false, not_or] at h
  obtain ⟨h1, h2, h3, h4, h5, h6, h7, h8, h9, h10, h11, h12, h13, h14, h15, h16⟩ := h
  unfold dispatch_tool_call
  simp [beq_iff_eq, h1, h2, h3, h4, h5, h6, h7, h8, h9, h10, h11, h12, h13, h14,
    h15, h16]

lemma call_external_service_gw (o : Oracles) (fn base : String)
    (params : List (String × String)) (tok um : String) :
    (call_external_service o fn base params tok um).2.1 =
      [mk_gateway_call base params tok] := by
  unfold call_external_service
  dsimp only
  split
  · split <;> rfl
  · rfl

lemma call_external_service_fail (o : Oracles) (fn base : String)
    (params : List (String × String)) (tok um t : String) (s : Nat)
    (j : Option String)
    (h : o.http_get (mk_gateway_call base params tok) = ⟨s, t, j⟩)
    (hs : s ≠ 200) :
    call_external_service o fn base params tok um =
      (.ok (fn ++ " failed with status " ++ toString s ++ ": " ++ t),
       [mk_gateway_call base params tok], []) := by
  unfold call_external_service
  simp [h, hs]

lemma process_tool_calls_nil (o : Oracles) (tok um : String) :
    process_tool_calls o [] tok um = (.ok [], [], []) := rfl

lemma process_tool_calls_cons {o : Oracles} {tc : ToolCall} {rest : List ToolCall}
    {tok um r : String} {g : List GatewayCall} {i : List InfCall}
    {rs : List String} {g2 : List GatewayCall} {i2 : List InfCall}
    (h1 : dispatch_tool_call o tc.name (tc.arguments.getD []) tok um = (.ok r, g, i))
    (h2 : process_tool_calls o rest tok um = (.ok rs, g2, i2)) :
    process_tool_calls o (tc :: rest) tok um =
      (.ok (if r == "" then rs else r :: rs), g ++ g2, i ++ i2) := by
  simp only [process_tool_calls, h1, h2]

lemma query_ai_tool_branch (o : Oracles) (req : ChatRequest) (d : Decoded)
    (tcs : List ToolCall) (c : String) (rs : List String)
    (g : List GatewayCall) (i : List InfCall)
    (hm : pyFalsy req.message = false) (ht : pyFalsy req.token = false)
    (he : pyFalsy req.email = false)
    (hv : o.verify_id_token (pyStr req.token) = some d)
    (hd : d.email = some (pyStr req.email))
    (hmodel : ∀ s u, o.chat_completion s u = ⟨tcs, c⟩)
    (hne : tcs ≠ [])
    (hp : process_tool_calls o tcs (pyStr req.token) (pyStr req.message) =
      (.ok rs, g, i)) :
    query_ai o req =
      (⟨200, .reply (String.intercalate "\n" rs)⟩,
       ⟨[pyStr req.token],
        InfCall.resolve
          (SYSTEM_PROMPT_format o.current_date (pyStr req.email)
            (pyStr req.clubName) (pyStr req.ageGroup) (pyStr req.division)
            (pyStr req.month) (pyStr req.token))
          (pyStr req.message) :: i,
        g⟩) := by
  unfold query_ai
  simp [hm, ht, he, hv, hd, hmodel, bne_iff_ne, hne, hp]

lemma intercalate_three (a b c : String) :
    String.intercalate "\n" [a, b, c] = a ++ "\n" ++ b ++ "\n" ++ c := by
  simp [String.intercalate, String.intercalate.go]

lemma fail_string_ne_empty (fn ts txt : String) :
    fn ++ " failed with status " ++ ts ++ ": " ++ txt ≠ "" := by
  intro h
  have h2 := congrArg String.length h
  simp only [String.length_append] at h2
  have h20 : (" failed with status ").length = 20 := rfl
  simp [h20] at h2

lemma dispatch_gw_method (o : Oracles) (fn_name : String)
    (fn_args : List (String × String)) (id_token user_message : String) :
    ∀ gc ∈ (dispatch_tool_call o fn_name fn_args id_token user_message).2.1,
      gc.method = Method.GET := by
  intro gc hgc
  by_cases h : fn_name ∈ CATALOG.map Prod.fst
  · obtain ⟨p, hp, hfst⟩ := List.mem_map.mp h
    obtain ⟨fn, route⟩ := p
    dsimp at hfst
    subst hfst
    rw [dispatch_tool_call_catalog o fn route fn_args id_token user_message hp,
        call_external_service_gw] at hgc
    simp at hgc
    subst hgc
    rfl
  · rw [dispatch_tool_call_unknown o fn_name fn_args id_token user_message h] at hgc
    simp at hgc

lemma process_gw_method (o : Oracles) (tcs : List ToolCall) (tok um : String) :
    ∀ gc ∈ (process_tool_calls o tcs tok um).2.1, gc.method = Method.GET := by
  induction tcs with
  | nil =>
    intro gc hgc
    simp [process_tool_calls] at hgc
  | cons tc rest ih =>
    intro gc hgc
    simp only [process_tool_calls] at hgc
    split at hgc
    · exact dispatch_gw_method o tc.name _ tok um gc (by simpa using hgc)
    · split at hgc
      · rcases List.mem_append.mp (by simpa using hgc) with h | h
        · exact dispatch_gw_method o tc.name _ tok um gc h
        · exact ih gc h
      · rcases List.mem_append.mp (by simpa using hgc) with h | h
        · exact dispatch_gw_method o tc.name _ tok um gc h
        · exact ih gc h

/-- Identity-provider oracle used by the concrete fixtures: the token
`tok123` verifies to the subject email `a@x.com`; every other token raises. -/
def verifyW : String → Option Decoded :=
  fun t => if t == "tok123" then some ⟨some "a@x.com"⟩ else none

/-- Concrete oracle bundle for fixtures: fixed date and verifier, a constant
first-completion result, and pluggable gateway and synthesis oracles. -/
def mkOracles (m : ModelMsg) (hg : GatewayCall → GatewayResp)
    (syn : String → String → String) : Oracles :=
  ⟨"2026-10-12", verifyW, fun _ _ => m, hg, syn⟩

/-- Request fixture whose message contains the keyword `members`. -/
def reqW : ChatRequest :=
  ⟨some "list my team members", some "tok123", some "a@x.com", none, none, none, none⟩

/-- Request fixture whose claimed email differs from the token subject. -/
def reqW_mismatch : ChatRequest :=
  ⟨some "hello", some "tok123", some "b@x.com", none, none, none, none⟩

/-- Request fixture whose message matches no fallback keyword. -/
def reqW_nokw : ChatRequest :=
  ⟨some "hello there", some "tok123", some "a@x.com", none, none, none, none⟩

/-- Oracle fixture: model returns no tool calls and a direct answer. -/
def oC2 : Oracles := mkOracles ⟨[], "I cannot do that."⟩
  (fun _ => ⟨200, "[]", some "[]"⟩) (fun _ _ => "ok")

/-- Oracle fixture: model invokes `getResult` with a parsed argument mapping. -/
def oC3 : Oracles := mkOracles ⟨[⟨"getResult", some [("matchId", "m1")]⟩], ""⟩
  (fun _ => ⟨503, "unavailable", none⟩) (fun _ _ => "ok")

/-- Synthesis oracle returning the empty string (falsy content) for the
`getRides` synthesis pass and distinct nonempty text for the others. -/
def synC4 : String → String → String := fun sys _ =>
  if sys == followup_system "getPlayers" then "alpha"
  else if sys == followup_system "getRides" then ""
  else "gamma"

/-- Oracle fixture: three successful capability invocations, the middle
synthesis producing the empty string. -/
def oC4 : Oracles := mkOracles
  ⟨[⟨"getPlayers", some []⟩, ⟨"getRides", some []⟩, ⟨"listProducts", some []⟩], ""⟩
  (fun _ => ⟨200, "[]", some "[]"⟩) synC4

/-- Synthesis oracle with three distinct nonempty outputs. -/
def synC4w : String → String → String := fun sys _ =>
  if sys == followup_system "getPlayers" then "alpha"
  else if sys == followup_system "getRides" then "beta"
  else "gamma"

/-- Oracle fixture: three successful invocations with nonempty syntheses. -/
def oC4w : Oracles := mkOracles
  ⟨[⟨"getPlayers", some []⟩, ⟨"getRides", some []⟩, ⟨"listProducts", some []⟩], ""⟩
  (fun _ => ⟨200, "[]", some "[]"⟩) synC4w

/-- Oracle fixture: three invocations, the gateway failing with 503 on the
`listTeamMembers` route only. -/
def oC5w : Oracles := mkOracles
  ⟨[⟨"getPlayers", some []⟩, ⟨"listTeamMembers", some []⟩, ⟨"listProducts", some []⟩], ""⟩
  (fun gc => if gc.url == GATEWAY_BASE ++ "/membership/team"
    then ⟨503, "unavailable", none⟩ else ⟨200, "[]", some "[]"⟩)
  (fun sys _ => if sys == followup_system "getPlayers" then "alpha" else "gamma")

/-- Claim C1: for every request where the body field `email` does not match
the email decoded from `token`, the endpoint responds 403 with body
`{"error": "Email mismatch"}`, and no capability invocation occurs - the
trace records no gateway call and no inference call. -/
theorem claim_C1 (o : Oracles) (req : ChatRequest) (d : Decoded)
    (hm : pyFalsy req.message = false) (ht : pyFalsy req.token = false)
    (he : pyFalsy req.email = false)
    (hv : o.verify_id_token (pyStr req.token) = some d)
    (hd : d.email ≠ some (pyStr req.email)) :
    query_ai o req = (⟨403, .error "Email mismatch"⟩, ⟨[pyStr req.token], [], []⟩) := by
  unfold query_ai
  simp [hm, ht, he, hv, bne_iff_ne, hd]

/-- Witness for C1 at a concrete request: token subject `a@x.com`, claimed
email `b@x.com`. -/
theorem claim_C1_witness :
    query_ai (mkOracles ⟨[], "x"⟩ (fun _ => ⟨500, "", none⟩) (fun _ _ => ""))
        reqW_mismatch =
      (⟨403, .error "Email mismatch"⟩, ⟨["tok123"], [], []⟩) :=
  claim_C1 _ _ ⟨some "a@x.com"⟩ (by decide) (by decide) (by decide) (by decide)
    (by decide)

set_option maxRecDepth 100000 in
/-- Claim C2 (code bug): with a valid matching token, message
`list my team members`, and a model turn with no tool calls, the fallback
keyword table does select `listTeamMembers`, but the code then reads the
unassigned local `fn_args` and the endpoint returns 500 with no gateway call,
not 200 with a synthesized reply. -/
theorem claim_C2 :
    fallback_fn_name (pyLower "list my team members") = some "listTeamMembers" ∧
    query_ai oC2 reqW =
      (⟨500, .error (pyErrStr (.unboundLocal "fn_args"))⟩,
       ⟨["tok123"],
        [InfCall.resolve
          (SYSTEM_PROMPT_format "2026-10-12" "a@x.com" "None" "None" "None" "None"
            "tok123")
          "list my team members"],
        []⟩) := by
  constructor
  · decide
  · decide

set_option maxRecDepth 100000 in
/-- Counterexample to C3 as stated: `getResult` is in the catalog and is
invoked with the nonempty parsed arguments `{"matchId": "m1"}`, yet the
gateway call carries empty query parameters. -/
theorem claim_C3_counterexample :
    ("getResult", "/fixture/results") ∈ CATALOG ∧
    (query_ai oC3 reqW).2.gw_calls =
      [{ method := Method.GET,
         url := GATEWAY_BASE ++ "/fixture/results",
         params := [],
         authHeader := "Bearer tok123",
         timeout := 20 }] ∧
    ([("matchId", "m1")] : List (String × String)) ≠ [] := by
  refine ⟨by decide, by decide, by decide⟩

/-- Claim C3 as amended: for every invocation of a capability present in the
catalog, the gateway call is a GET to that capability mapped route with the
session token as bearer credential and a 20-second timeout, and its query
parameters are exactly the parsed arguments - except for `getResult` and
`getPlayerRating`, which are always called with empty query parameters
(`sent_params`). -/
theorem claim_C3 (o : Oracles) (fn_name route : String)
    (fn_args : List (String × String)) (id_token user_message : String)
    (h : (fn_name, route) ∈ CATALOG) :
    (dispatch_tool_call o fn_name fn_args id_token user_message).2.1 =
      [{ method := Method.GET,
         url := GATEWAY_BASE ++ route,
         params := sent_params fn_name fn_args,
         authHeader := "Bearer " ++ id_token,
         timeout := 20 }] := by
  rw [dispatch_tool_call_catalog o fn_name route fn_args id_token user_message h]
  exact call_external_service_gw o fn_name route (sent_params fn_name fn_args)
    id_token user_message

/-- Witness for the amended C3 at `getPlayers` with one argument. -/
theorem claim_C3_witness :
    (dispatch_tool_call oC3 "getPlayers" [("clubName", "X")] "tok123" "m").2.1 =
      [{ method := Method.GET,
         url := GATEWAY_BASE ++ "/club/players",
         params := sent_params "getPlayers" [("clubName", "X")],
         authHeader := "Bearer " ++ "tok123",
         timeout := 20 }] :=
  claim_C3 oC3 "getPlayers" "/club/players" [("clubName", "X")] "tok123" "m"
    (by decide)

set_option maxRecDepth 100000 in
/-- Counterexample to C4 as stated: three invocations all succeed, the middle
synthesis returns the empty string, and the final reply is `alpha\ngamma`,
not the claimed `synth(A) + newline + synth(B) + newline + synth(C)`,
because a falsy segment is dropped together with its separator. -/
theorem claim_C4_counterexample :
    (query_ai oC4 reqW).1 = ⟨200, .reply "alpha\ngamma"⟩ ∧
    oC4.synth_completion (followup_system "getRides")
      (followup_user "list my team members" "[]") = "" ∧
    ("alpha\ngamma" : String) ≠ "alpha" ++ "\n" ++ "" ++ "\n" ++ "gamma" := by
  refine ⟨by decide, by decide, by decide⟩

/-- Claim C4 as amended: when the model turn resolves to invocations
`[A, B, C]` and every per-invocation reply segment is nonempty, the final
reply equals the three independently computed segments joined with a newline
separator, in the emitted order. -/
theorem claim_C4 (o : Oracles) (req : ChatRequest) (d : Decoded)
    (A B C : ToolCall) (c sA sB sC : String)
    (gA gB gC : List GatewayCall) (iA iB iC : List InfCall)
    (hm : pyFalsy req.message = false) (ht : pyFalsy req.token = false)
    (he : pyFalsy req.email = false)
    (hv : o.verify_id_token (pyStr req.token) = some d)
    (hd : d.email = some (pyStr req.email))
    (hmodel : ∀ s u, o.chat_completion s u = ⟨[A, B, C], c⟩)
    (hA : dispatch_tool_call o A.name (A.arguments.getD [])
            (pyStr req.token) (pyStr req.message) = (.ok sA, gA, iA))
    (hB : dispatch_tool_call o B.name (B.arguments.getD [])
            (pyStr req.token) (pyStr req.message) = (.ok sB, gB, iB))
    (hC : dispatch_tool_call o C.name (C.arguments.getD [])
            (pyStr req.token) (pyStr req.message) = (.ok sC, gC, iC))
    (hsA : sA ≠ "") (hsB : sB ≠ "") (hsC : sC ≠ "") :
    (query_ai o req).1 = ⟨200, .reply (sA ++ "\n" ++ sB ++ "\n" ++ sC)⟩ := by
  have p0 := process_tool_calls_nil o (pyStr req.token) (pyStr req.message)
  have p1 := process_tool_calls_cons hC p0
  rw [if_neg (by simp [hsC])] at p1
  have p2 := process_tool_calls_cons hB p1
  rw [if_neg (by simp [hsB])] at p2
  have p3 := process_tool_calls_cons hA p2
  rw [if_neg (by simp [hsA])] at p3
  have hq := query_ai_tool_branch o req d [A, B, C] c _ _ _ hm ht he hv hd hmodel
    (by simp) p3
  rw [hq]
  rw [intercalate_three]

set_option maxRecDepth 100000 in
/-- Witness for the amended C4: segments `alpha`, `beta`, `gamma` joined with
newlines, in order. -/
theorem claim_C4_witness :
    (query_ai oC4w reqW).1 =
      ⟨200, .reply ("alpha" ++ "\n" ++ "beta" ++ "\n" ++ "gamma")⟩ :=
  claim_C4 oC4w reqW ⟨some "a@x.com"⟩
    ⟨"getPlayers", some []⟩ ⟨"getRides", some []⟩ ⟨"listProducts", some []⟩
    "" "alpha" "beta" "gamma"
    [mk_gateway_call "/club/players" [] "tok123"]
    [mk_gateway_call "/carpool/rides" [] "tok123"]
    [mk_gateway_call "/products/list" [] "tok123"]
    [InfCall.synth (followup_system "getPlayers")
      (followup_user "list my team members" "[]")]
    [InfCall.synth (followup_system "getRides")
      (followup_user "list my team members" "[]")]
    [InfCall.synth (followup_system "listProducts")
      (followup_user "list my team members" "[]")]
    (by decide) (by decide) (by decide) (by decide) (by decide)
    (fun _ _ => rfl) (by decide) (by decide) (by decide)
    (by decide) (by decide) (by decide)

/-- Claim C5: in a three-invocation turn, when the gateway call of the middle
capability returns a non-200 status, its reply segment is exactly
`<capability> failed with status <code>: <body>`, no synthesis pass runs for
it (it contributes no inference call), the segments of the other successful
capabilities are unaffected, and the overall HTTP status is still 200. -/
theorem claim_C5 (o : Oracles) (req : ChatRequest) (d : Decoded)
    (A B C : ToolCall) (routeB c sA sC b : String) (s : Nat) (jB : Option String)
    (gA gC : List GatewayCall) (iA iC : List InfCall)
    (hm : pyFalsy req.message = false) (ht : pyFalsy req.token = false)
    (he : pyFalsy req.email = false)
    (hv : o.verify_id_token (pyStr req.token) = some d)
    (hd : d.email = some (pyStr req.email))
    (hmodel : ∀ s u, o.chat_completion s u = ⟨[A, B, C], c⟩)
    (hBcat : (B.name, routeB) ∈ CATALOG)
    (hBgw : o.http_get (mk_gateway_call routeB
              (sent_params B.name (B.arguments.getD [])) (pyStr req.token)) =
            ⟨s, b, jB⟩)
    (hs : s ≠ 200)
    (hA : dispatch_tool_call o A.name (A.arguments.getD [])
            (pyStr req.token) (pyStr req.message) = (.ok sA, gA, iA))
    (hC : dispatch_tool_call o C.name (C.arguments.getD [])
            (pyStr req.token) (pyStr req.message) = (.ok sC, gC, iC))
    (hsA : sA ≠ "") (hsC : sC ≠ "") :
    query_ai o req =
      (⟨200, .reply (sA ++ "\n"
          ++ (B.name ++ " failed with status " ++ toString s ++ ": " ++ b)
          ++ "\n" ++ sC)⟩,
       ⟨[pyStr req.token],
        InfCall.resolve
          (SYSTEM_PROMPT_format o.current_date (pyStr req.email) (pyStr req.clubName)
            (pyStr req.ageGroup) (pyStr req.division) (pyStr req.month)
            (pyStr req.token))
          (pyStr req.message) :: (iA ++ iC),
        gA ++ mk_gateway_call routeB (sent_params B.name (B.arguments.getD []))
          (pyStr req.token) :: gC⟩) := by
  have hB : dispatch_tool_call o B.name (B.arguments.getD [])
      (pyStr req.token) (pyStr req.message) =
      (.ok (B.name ++ " failed with status " ++ toString s ++ ": " ++ b),
       [mk_gateway_call routeB (sent_params B.name (B.arguments.getD []))
         (pyStr req.token)], []) := by
    rw [dispatch_tool_call_catalog o B.name routeB _ _ _ hBcat]
    rw [call_external_service_fail o B.name routeB _ _ _ b s jB hBgw hs]
  have p0 := process_tool_calls_nil o (pyStr req.token) (pyStr req.message)
  have p1 := process_tool_calls_cons hC p0
  rw [if_neg (by simp [hsC])] at p1
  have p2 := process_tool_calls_cons hB p1
  rw [if_neg (by simpa using fail_string_ne_empty B.name (toString s) b)] at p2
  have p3 := process_tool_calls_cons hA p2
  rw [if_neg (by simp [hsA])] at p3
  have hq := query_ai_tool_branch o req d [A, B, C] c _ _ _ hm ht he hv hd hmodel
    (by simp) p3
  rw [hq, intercalate_three]
  simp

set_option maxRecDepth 100000 in
/-- Witness for C5: `listTeamMembers` fails with 503 `unavailable` between
two successful capabilities. -/
theorem claim_C5_witness :
    query_ai oC5w reqW =
      (⟨200, .reply ("alpha" ++ "\n"
          ++ ("listTeamMembers" ++ " failed with status " ++ toString (503 : Nat)
              ++ ": " ++ "unavailable")
          ++ "\n" ++ "gamma")⟩,
       ⟨["tok123"],
        InfCall.resolve
          (SYSTEM_PROMPT_format "2026-10-12" "a@x.com" "None" "None" "None" "None"
            "tok123")
          "list my team members" ::
          ([InfCall.synth (followup_system "getPlayers")
              (followup_user "list my team members" "[]")] ++
           [InfCall.synth (followup_system "listProducts")
              (followup_user "list my team members" "[]")]),
        [mk_gateway_call "/club/players" [] "tok123"] ++
          mk_gateway_call "/membership/team" [] "tok123" ::
            [mk_gateway_call "/products/list" [] "tok123"]⟩) :=
  claim_C5 oC5w reqW ⟨some "a@x.com"⟩
    ⟨"getPlayers", some []⟩ ⟨"listTeamMembers", some []⟩ ⟨"listProducts", some []⟩
    "/membership/team" "" "alpha" "gamma" "unavailable" 503 none
    [mk_gateway_call "/club/players" [] "tok123"]
    [mk_gateway_call "/products/list" [] "tok123"]
    [InfCall.synth (followup_system "getPlayers")
      (followup_user "list my team members" "[]")]
    [InfCall.synth (followup_system "listProducts")
      (followup_user "list my team members" "[]")]
    (by decide) (by decide) (by decide) (by decide) (by decide)
    (fun _ _ => rfl) (by decide) (by decide) (by decide)
    (by decide) (by decide) (by decide) (by decide)

/-- Claim C6: the fallback keyword table is tested against the lowercased
message in source order with first match winning, so the message
`show me all fixtures and products` selects `getAllFixtures` (the
all-fixtures capability), not `listProducts`; and when no keyword matches,
the model direct-answer text is returned unchanged with status 200 and no
capability runs (no gateway call, only the single resolve inference call). -/
theorem claim_C6 (o : Oracles) (req : ChatRequest) (d : Decoded) (c : String)
    (hm : pyFalsy req.message = false) (ht : pyFalsy req.token = false)
    (he : pyFalsy req.email = false)
    (hv : o.verify_id_token (pyStr req.token) = some d)
    (hd : d.email = some (pyStr req.email))
    (hmodel : ∀ s u, o.chat_completion s u = ⟨[], c⟩) :
    fallback_fn_name (pyLower "show me all fixtures and products") =
      some "getAllFixtures" ∧
    (fallback_fn_name (pyLower (pyStr req.message)) = none →
      query_ai o req =
        (⟨200, .reply c⟩,
         ⟨[pyStr req.token],
          [InfCall.resolve
            (SYSTEM_PROMPT_format o.current_date (pyStr req.email) (pyStr req.clubName)
              (pyStr req.ageGroup) (pyStr req.division) (pyStr req.month)
              (pyStr req.token))
            (pyStr req.message)],
          []⟩)) := by
  refine ⟨by decide, fun hkw => ?_⟩
  unfold query_ai
  simp [hm, ht, he, hv, hd, hmodel, hkw]

set_option maxRecDepth 100000 in
/-- Witness for C6 at the keyword-free message `hello there`: the direct
answer is returned unchanged. -/
theorem claim_C6_witness :
    query_ai oC2 reqW_nokw =
      (⟨200, .reply "I cannot do that."⟩,
       ⟨["tok123"],
        [InfCall.resolve
          (SYSTEM_PROMPT_format "2026-10-12" "a@x.com" "None" "None" "None" "None"
            "tok123")
          "hello there"],
        []⟩) :=
  (claim_C6 oC2 reqW_nokw ⟨some "a@x.com"⟩ "I cannot do that."
    (by decide) (by decide) (by decide) (by decide) (by decide)
    (fun _ _ => rfl)).2 (by decide)

/-- Claim C7: an invocation naming a capability absent from the catalog
yields the literal reply segment `Unknown function call received.` and
performs no gateway call and no inference call. -/
theorem claim_C7 (o : Oracles) (fn_name : String)
    (fn_args : List (String × String)) (id_token user_message : String)
    (h : fn_name ∉ CATALOG.map Prod.fst) :
    dispatch_tool_call o fn_name fn_args id_token user_message =
      (.ok "Unknown function call received.", [], []) :=
  dispatch_tool_call_unknown o fn_name fn_args id_token user_message h

/-- Witness for C7 at the unknown capability name `deleteFixture`. -/
theorem claim_C7_witness :
    dispatch_tool_call oC3 "deleteFixture" [("matchId", "m1")] "tok123" "m" =
      (.ok "Unknown function call received.", [], []) :=
  claim_C7 oC3 "deleteFixture" [("matchId", "m1")] "tok123" "m" (by decide)

/-- Claim C8: every outbound gateway call reachable from any request - over
all oracle behaviours, hence all resolver-selected and fallback paths - uses
the HTTP GET method; no reachable code path issues a mutating request. -/
theorem claim_C8 (o : Oracles) (req : ChatRequest) (gc : GatewayCall)
    (h : gc ∈ (query_ai o req).2.gw_calls) : gc.method = Method.GET := by
  simp only [query_ai] at h
  split at h
  · simp at h
  · split at h
    · simp at h
    · split at h
      · simp at h
      · split at h
        · split at h
          · exact process_gw_method o _ _ _ gc (by simpa using h)
          · exact process_gw_method o _ _ _ gc (by simpa using h)
        · split at h <;> simp at h

set_option maxRecDepth 100000 in
/-- Witness for C8: the gateway call produced by a concrete `getResult`
invocation uses GET. -/
theorem claim_C8_witness :
    (mk_gateway_call "/fixture/results" [] "tok123").method = Method.GET :=
  claim_C8 oC3 reqW (mk_gateway_call "/fixture/results" [] "tok123") (by decide)

/-- Claim C9: for every authenticated request the first inference call sent
to the language-model service carries the assembled system prompt, that
prompt contains the raw session token verbatim as a substring, and the
prompt is injective in the token - two requests identical except for their
session token produce different prompts. -/
theorem claim_C9 (o : Oracles) (req : ChatRequest) (d : Decoded)
    (hm : pyFalsy req.message = false) (ht : pyFalsy req.token = false)
    (he : pyFalsy req.email = false)
    (hv : o.verify_id_token (pyStr req.token) = some d)
    (hd : d.email = some (pyStr req.email)) :
    (∃ rest, (query_ai o req).2.inf_calls =
       InfCall.resolve
         (SYSTEM_PROMPT_format o.current_date (pyStr req.email) (pyStr req.clubName)
           (pyStr req.ageGroup) (pyStr req.division) (pyStr req.month)
           (pyStr req.token))
         (pyStr req.message) :: rest) ∧
    (∃ A B : List Char,
       (SYSTEM_PROMPT_format o.current_date (pyStr req.email) (pyStr req.clubName)
         (pyStr req.ageGroup) (pyStr req.division) (pyStr req.month)
         (pyStr req.token)).data = A ++ (pyStr req.token).data ++ B) ∧
    (∀ cd e cl a v m t1 t2,
       SYSTEM_PROMPT_format cd e cl a v m t1 = SYSTEM_PROMPT_format cd e cl a v m t2 →
         t1 = t2) := by
  refine ⟨?_, prompt_contains_token _ _ _ _ _ _ _,
    fun cd e cl a v m t1 t2 hh => prompt_token_inj cd e cl a v m t1 t2 hh⟩
  unfold query_ai
  simp only [hm, ht, he, Bool.or_self, Bool.false_or, if_neg, hv, hd,
    bne_self_eq_false, Bool.not_eq_true, ite_false, Bool.false_eq_true]
  split
  · split
    · exact ⟨_, rfl⟩
    · exact ⟨_, rfl⟩
  · split
    · exact ⟨_, rfl⟩
    · exact ⟨_, rfl⟩

set_option maxRecDepth 100000 in
/-- Witness for C9 at a concrete authenticated request. -/
theorem claim_C9_witness :
    (∃ rest, (query_ai oC2 reqW).2.inf_calls =
       InfCall.resolve
         (SYSTEM_PROMPT_format "2026-10-12" "a@x.com" "None" "None" "None" "None"
           "tok123")
         "list my team members" :: rest) ∧
    (∃ A B : List Char,
       (SYSTEM_PROMPT_format "2026-10-12" "a@x.com" "None" "None" "None" "None"
         "tok123").data = A ++ ("tok123" : String).data ++ B) ∧
    (∀ cd e cl a v m t1 t2,
       SYSTEM_PROMPT_format cd e cl a v m t1 = SYSTEM_PROMPT_format cd e cl a v m t2 →
         t1 = t2) :=
  claim_C9 oC2 reqW ⟨some "a@x.com"⟩
    (by decide) (by decide) (by decide) (by decide) (by decide)

/-- Claim C10: a request in which `message`, `token`, or `email` is present
but empty is rejected exactly like one where the field is absent: 400 with
`Missing required fields`, before token verification and before any external
call (the trace is empty). -/
theorem claim_C10 (o : Oracles) (req : ChatRequest)
    (h : req.message = some "" ∨ req.token = some "" ∨ req.email = some "" ∨
         req.message = none ∨ req.token = none ∨ req.email = none) :
    query_ai o req = (⟨400, .error "Missing required fields"⟩, ⟨[], [], []⟩) := by
  unfold query_ai
  rcases h with h | h | h | h | h | h <;> simp [h, pyFalsy]

/-- Witness for C10 at a request with an empty `message` field. -/
theorem claim_C10_witness :
    query_ai oC2 ⟨some "", some "tok123", some "a@x.com", none, none, none, none⟩ =
      (⟨400, .error "Missing required fields"⟩, ⟨[], [], []⟩) :=
  claim_C10 oC2 _ (Or.inl rfl)

end Grassroots
